import Mathlib

/-!
Shallow embedding of the core of the Public-Transport-Analysis repository
(`src/app.py`, `src/Critical_Real/traffic_alerts.py`,
`src/Critical_Real/traffic_collector.py`, `src/Critical_Real/traffic_analyzer.py`,
`src/Critical_Real/traffic_config.py`) and proofs about it.

Conventions of the embedding:
* Python floats are modelled as exact rationals (`ℚ`); Python ints as `ℤ`/`ℕ`.
* Python `None` is `Option.none`; a fallible computation returns an `Option`.
* Python truthiness on a number is "≠ 0", on a string "≠ empty", on an
  `Option` "is some".
* `round(x, n)` is Python's round-half-to-even on the exact rational value.
* `int(x)` truncates toward zero.
* Wall-clock readings (`datetime.utcnow()` / `datetime.now()`) are modelled as
  explicit `ℕ` parameters: each distinct call site that reads the clock takes
  the reading as an argument.
* Network I/O is modelled by response oracles: a function from the attempt
  index to the response received on that attempt.
-/

namespace PTA

/-- Python `round`'s integer core: round-half-to-even of a rational to an
integer. -/
def rhe (x : ℚ) : ℤ :=
  if x - ⌊x⌋ < 1 / 2 then ⌊x⌋
  else if 1 / 2 < x - ⌊x⌋ then ⌊x⌋ + 1
  else if Even ⌊x⌋ then ⌊x⌋ else ⌊x⌋ + 1

/-- Python `round(x, n)`: round-half-to-even to `n` decimal places. -/
def pyRound (x : ℚ) (n : ℕ) : ℚ := (rhe (x * 10 ^ n) : ℚ) / 10 ^ n

/-- Python `int(x)`: truncation toward zero. -/
def pyInt (q : ℚ) : ℤ := if 0 ≤ q then ⌊q⌋ else ⌈q⌉

/-! ### `traffic_config.py` -/

/-- `traffic_config.MAX_RETRIES`: number of retries for failed API calls. -/
def MAX_RETRIES : ℕ := 3

/-- `traffic_config.RoutePoint` (the dataclass): a monitored location. -/
structure RoutePoint where
  name : String
  lat : ℚ
  lon : ℚ
deriving DecidableEq

/-! ### `traffic_alerts.py` — `TrafficAlertSystem` -/

/-- The three alert types emitted by `check_for_alerts`. -/
inductive AlertType
  | CONGESTION
  | INCIDENTS
  | SPEED_REDUCTION
deriving DecidableEq

/-- One row of the `traffic_data` table as consumed by `check_for_alerts`
(`row['point_name']`, `row.get('current_speed', 0)`, `row.get('free_flow_speed', 0)`,
`row.get('traffic_incidents', 0)`). -/
structure TrafficRow where
  point_name : String
  current_speed : ℚ
  free_flow_speed : ℚ
  traffic_incidents : ℤ
deriving DecidableEq

/-- An alert dict as built inside `check_for_alerts`
(`{'point_name': …, 'alert_type': …, 'severity': …, 'message': …}`).
The human-readable `message` string (pure formatting of the same numbers) is
not modelled. -/
structure Alert where
  point_name : String
  alert_type : AlertType
  severity : ℤ
deriving DecidableEq

/-- The traffic index computed in `check_for_alerts` (lines 71-76):
`max(0, min(100, 100 * (1 - current_speed / free_flow_speed)))` when
`free_flow_speed > 0 and current_speed > 0`, else `0`. -/
def trafficIndex (current_speed free_flow_speed : ℚ) : ℚ :=
  if 0 < free_flow_speed ∧ 0 < current_speed then
    max 0 (min 100 (100 * (1 - current_speed / free_flow_speed)))
  else 0

/-- The CONGESTION alert dict built at lines 80-87:
`severity = min(int(traffic_index / 10), 10)`. -/
def congestionAlert (row : TrafficRow) : Alert :=
  { point_name := row.point_name, alert_type := .CONGESTION,
    severity := min (pyInt (trafficIndex row.current_speed row.free_flow_speed / 10)) 10 }

/-- The INCIDENTS alert dict built at lines 89-97:
`severity = min(incidents, 10)`. -/
def incidentsAlert (row : TrafficRow) : Alert :=
  { point_name := row.point_name, alert_type := .INCIDENTS,
    severity := min row.traffic_incidents 10 }

/-- The SPEED_REDUCTION alert dict built at lines 100-110:
`severity = min(int((1 - current_speed / free_flow_speed) * 10), 10)`. -/
def speedReductionAlert (row : TrafficRow) : Alert :=
  { point_name := row.point_name, alert_type := .SPEED_REDUCTION,
    severity := min (pyInt ((1 - row.current_speed / row.free_flow_speed) * 10)) 10 }

/-- The alerts appended for a single row of recent data by `check_for_alerts`
(lines 65-110): a CONGESTION alert when `traffic_index >= 80`
(`severe_congestion_threshold`), an INCIDENTS alert when
`incidents >= 3` (`high_incident_threshold`), and a SPEED_REDUCTION alert
when `free_flow_speed > 0 and current_speed > 0` and
`current_speed / free_flow_speed <= 0.4` (`speed_reduction_threshold`). -/
def alertsForRow (row : TrafficRow) : List Alert :=
  (if trafficIndex row.current_speed row.free_flow_speed ≥ 80 then
    [congestionAlert row] else [])
  ++ (if row.traffic_incidents ≥ 3 then [incidentsAlert row] else [])
  ++ (if 0 < row.free_flow_speed ∧ 0 < row.current_speed ∧
         row.current_speed / row.free_flow_speed ≤ 0.4 then
    [speedReductionAlert row] else [])

/-- `check_for_alerts`, restricted to its pure decision logic: the list of
alerts accumulated over the recent rows (the outer `for _, row in
recent_data.iterrows()` loop). -/
def checkForAlerts (recent_data : List TrafficRow) : List Alert :=
  recent_data.flatMap alertsForRow

/-- One row of the `traffic_alerts` sqlite table
`(point_name, alert_type, severity, message, timestamp, notified)`;
`message` is not modelled, `notified` is the 0/1 INTEGER column. -/
structure AlertRecord where
  point_name : String
  alert_type : AlertType
  severity : ℤ
  timestamp : ℕ
  notified : ℕ
deriving DecidableEq

/-- `_save_alerts` (lines 139-163): INSERT one row per alert, all stamped with
the single `datetime.utcnow().isoformat()` reading `saveTime`, with
`notified = 0`. -/
def saveAlerts (db : List AlertRecord) (alerts : List Alert) (saveTime : ℕ) :
    List AlertRecord :=
  db ++ alerts.map (fun a =>
    { point_name := a.point_name, alert_type := a.alert_type,
      severity := a.severity, timestamp := saveTime, notified := 0 })

/-- One `UPDATE traffic_alerts SET notified = 1 WHERE point_name = ? AND
alert_type = ? AND timestamp = ?` statement (lines 208-211). -/
def notifyUpdate (db : List AlertRecord) (a : Alert) (ts : ℕ) : List AlertRecord :=
  db.map (fun r =>
    if r.point_name = a.point_name ∧ r.alert_type = a.alert_type ∧ r.timestamp = ts
    then { r with notified := 1 } else r)

/-- The notification-status update block of `_send_alert_email`
(lines 202-213), reached only after the email was sent successfully: for each
alert, run `notifyUpdate` with the FRESH clock reading `sendTime` taken at
line 205 (after the SMTP round trip), not the reading used by `_save_alerts`. -/
def sendAlertEmailDbUpdate (db : List AlertRecord) (alerts : List Alert)
    (sendTime : ℕ) : List AlertRecord :=
  alerts.foldl (fun d a => notifyUpdate d a sendTime) db

/-- The persist-then-dispatch path of `check_for_alerts` (lines 113-116) on a
successful email dispatch: `_save_alerts` at clock reading `saveTime`, then
`_send_alert_email`'s DB update at the later clock reading `sendTime`. -/
def processAlertBatch (db : List AlertRecord) (alerts : List Alert)
    (saveTime sendTime : ℕ) : List AlertRecord :=
  sendAlertEmailDbUpdate (saveAlerts db alerts saveTime) alerts sendTime

/-! ### `traffic_collector.py` — `TrafficDataCollector`

The two retry loops (`get_traffic_data` and `_get_incident_count`) are
embedded with a response oracle `ℕ → …Resp` giving the response received on
each attempt, and an explicit fuel argument equal to the number of loop
iterations left (`for attempt in range(MAX_RETRIES)`).  Each loop's outcome is
returned as a trace recording the result, the number of attempts actually
made, and the list of back-off sleep durations performed (in seconds). -/

/-- The `flowSegmentData` object of a 200 flow response; each field may be
missing from the JSON. -/
structure FlowSeg where
  currentSpeed : Option ℚ
  freeFlowSpeed : Option ℚ
deriving DecidableEq

/-- The outcome of one `requests.get` on the flow URL: an HTTP response with a
status code and an optional `flowSegmentData` object, a
`requests.exceptions.RequestException`, or some other exception. -/
inductive FlowResp
  | http (status : ℕ) (flowSegmentData : Option FlowSeg)
  | reqExn
  | otherExn
deriving DecidableEq

/-- The outcome of one `requests.get` on the incidents URL: an HTTP response
with a status code and the optional `incidents` JSON array, a
`requests.exceptions.RequestException`, or some other exception.  The
individual incident objects are opaque (`Unit`): only the length of the array
is consumed. -/
inductive IncResp
  | http (status : ℕ) (incidents : Option (List Unit))
  | reqExn
  | otherExn

/-- Trace of one `_get_incident_count` call. -/
structure IncTrace where
  count : ℕ
  attempts : ℕ
  sleeps : List ℕ
deriving DecidableEq

/-- The retry loop of `_get_incident_count` (lines 125-148): on a 200 response
return `len(data.get('incidents', []))`; on any other status or a
`RequestException` sleep `1 * (attempt + 1)` seconds and retry unless this was
the last attempt; on any other exception break out of the loop.  `attempt` is
the 0-based index of the current iteration, `fuel` the iterations left. -/
def incGo (oracle : ℕ → IncResp) : (attempt fuel : ℕ) → IncTrace
  | a, 0 => { count := 0, attempts := a, sleeps := [] }
  | a, fuel + 1 =>
    match oracle a with
    | .http s incidents =>
      if s = 200 then
        { count := (incidents.getD []).length, attempts := a + 1, sleeps := [] }
      else if a < MAX_RETRIES - 1 then
        let t := incGo oracle (a + 1) fuel
        { t with sleeps := (a + 1) :: t.sleeps }
      else incGo oracle (a + 1) fuel
    | .reqExn =>
      if a < MAX_RETRIES - 1 then
        let t := incGo oracle (a + 1) fuel
        { t with sleeps := (a + 1) :: t.sleeps }
      else incGo oracle (a + 1) fuel
    | .otherExn => { count := 0, attempts := a + 1, sleeps := [] }

/-- `_get_incident_count` (lines 118-153): runs the retry loop for
`MAX_RETRIES` iterations; if the loop finishes without returning, the function
falls through to `return 0`. -/
def getIncidentCount (oracle : ℕ → IncResp) : IncTrace :=
  incGo oracle 0 MAX_RETRIES

/-- A failing incident-query attempt: a non-200 HTTP response or a
`RequestException` (the outcomes the retry loop keeps retrying on). -/
def incFails (r : IncResp) : Prop :=
  match r with
  | .http s _ => s ≠ 200
  | .reqExn => True
  | .otherExn => False

/-- The dict built by `get_traffic_data` on a 200 response and inserted by
`save_traffic_data` as one row of the `traffic_data` table. -/
structure Sample where
  point_name : String
  latitude : ℚ
  longitude : ℚ
  timestamp : ℕ
  current_speed : Option ℚ
  free_flow_speed : Option ℚ
  traffic_incidents : ℕ
deriving DecidableEq

/-- Trace of one `get_traffic_data` call. -/
structure FlowTrace where
  result : Option Sample
  attempts : ℕ
  sleeps : List ℕ
deriving DecidableEq

/-- The retry loop of `get_traffic_data` (lines 76-111): on a 200 response
build the sample dict — fetching the incident count only if
`data.get('flowSegmentData')` is truthy, else 0 — and return it; on any other
status (403 included) or a `RequestException` sleep `1 * (attempt + 1)`
seconds and retry unless this was the last attempt; on any other exception
break.  `now` is the `datetime.utcnow()` reading at line 91. -/
def flowGo (oracle : ℕ → FlowResp) (incOracle : ℕ → IncResp)
    (point : RoutePoint) (now : ℕ) : (attempt fuel : ℕ) → FlowTrace
  | a, 0 => { result := none, attempts := a, sleeps := [] }
  | a, fuel + 1 =>
    match oracle a with
    | .http s flowSegmentData =>
      if s = 200 then
        let traffic_incidents :=
          if flowSegmentData.isSome then (getIncidentCount incOracle).count else 0
        { result := some
            { point_name := point.name, latitude := point.lat,
              longitude := point.lon, timestamp := now,
              current_speed := flowSegmentData.bind (·.currentSpeed),
              free_flow_speed := flowSegmentData.bind (·.freeFlowSpeed),
              traffic_incidents := traffic_incidents },
          attempts := a + 1, sleeps := [] }
      else if a < MAX_RETRIES - 1 then
        let t := flowGo oracle incOracle point now (a + 1) fuel
        { t with sleeps := (a + 1) :: t.sleeps }
      else flowGo oracle incOracle point now (a + 1) fuel
    | .reqExn =>
      if a < MAX_RETRIES - 1 then
        let t := flowGo oracle incOracle point now (a + 1) fuel
        { t with sleeps := (a + 1) :: t.sleeps }
      else flowGo oracle incOracle point now (a + 1) fuel
    | .otherExn => { result := none, attempts := a + 1, sleeps := [] }

/-- `get_traffic_data` (lines 66-116): if the API key is unset (Python-falsy:
`None` or empty), return `None` before any attempt; otherwise run the retry
loop for `MAX_RETRIES` iterations (returning `None` if it exhausts). -/
def getTrafficData (apiKey : Option String) (oracle : ℕ → FlowResp)
    (incOracle : ℕ → IncResp) (point : RoutePoint) (now : ℕ) : FlowTrace :=
  if apiKey.getD "" = "" then { result := none, attempts := 0, sleeps := [] }
  else flowGo oracle incOracle point now 0 MAX_RETRIES

/-- `save_traffic_data` (lines 168-188): `if not data: return`, else INSERT
the row exactly as given. -/
def saveTrafficData (db : List Sample) (data : Option Sample) : List Sample :=
  match data with
  | none => db
  | some s => db ++ [s]

/-- One iteration of the `collect_data` loop (lines 198-210) for a single
point: fetch, and persist iff a sample came back. -/
def collectPoint (db : List Sample) (apiKey : Option String)
    (oracle : ℕ → FlowResp) (incOracle : ℕ → IncResp) (point : RoutePoint)
    (now : ℕ) : List Sample :=
  saveTrafficData db (getTrafficData apiKey oracle incOracle point now).result

/-! ### `traffic_analyzer.py` — `TrafficAnalyzer.get_traffic_trends` -/

/-- The traffic index of `get_traffic_trends` (lines 53-54):
`100 * (1 - avg_speed / avg_free_flow)` clipped to `[0, 100]`
(pandas `clip(0, 100)` is `min (max · 0) 100`). -/
def analyzerTrafficIndex (avg_speed avg_free_flow : ℚ) : ℚ :=
  min (max (100 * (1 - avg_speed / avg_free_flow)) 0) 100

/-! ### `app.py` — congestion cache and `get_congestion`

The cache key `f"{round(lat, 4)}_{round(lon, 4)}"` is modelled as the pair of
the two rounded coordinates (the string encoding of the two numbers joined by
an underscore is a bijective image of that pair). -/

/-- The cache key of `get_congestion` (line 128). -/
def quantKey (lat lon : ℚ) : ℚ × ℚ := (pyRound lat 4, pyRound lon 4)

/-- The process-wide mutable state touched by `get_congestion`: the
`congestion_cache` dict and the `cache_hits` / `api_calls` counters. -/
structure CacheSt where
  cache : ℚ × ℚ → Option (ℚ × ℚ)
  cache_hits : ℕ
  api_calls : ℕ

/-- The dict assignment `congestion_cache[key] = (cs, ffs)` (line 145), for
the key of `(lat, lon)`. -/
def cachePut (st : CacheSt) (lat lon cs ffs : ℚ) : CacheSt :=
  { st with cache := fun k => if k = quantKey lat lon then some (cs, ffs) else st.cache k }

/-- The outcome of the `requests.get` on the flow URL inside `get_congestion`:
a 200 response carrying `currentSpeed` and `freeFlowSpeed`, a non-200 status,
or an exception. -/
inductive ApiResp
  | ok (currentSpeed freeFlowSpeed : ℚ)
  | httpErr (status : ℕ)
  | exn

/-- `get_congestion` (lines 126-152): on a cache hit return the cached pair
and bump `cache_hits`; on a miss perform the API call (`api` is its outcome):
a 200 response bumps `api_calls`, stores the pair in the cache and returns it;
any other outcome returns `(None, None)` and leaves the state unchanged. -/
def getCongestion (st : CacheSt) (api : ApiResp) (lat lon : ℚ) :
    Option (ℚ × ℚ) × CacheSt :=
  match st.cache (quantKey lat lon) with
  | some v => (some v, { st with cache_hits := st.cache_hits + 1 })
  | none =>
    match api with
    | .ok cs ffs =>
      (some (cs, ffs), { cachePut st lat lon cs ffs with api_calls := st.api_calls + 1 })
    | .httpErr _ => (none, st)
    | .exn => (none, st)

/-! ### `app.py` — route evaluation (`evaluate_routes`, `get_estimated_times`)

The claims about route evaluation fix the congestion value of every
coordinate ("every fixed assignment of congestion values"), so the
`get_congestion` call is abstracted as a pure lookup
`cong : ℚ → ℚ → Option (ℚ × ℚ)` returning `some (current_speed, free_speed)`
or `none` for the `(None, None)` outcome; likewise the GTFS join
`get_ordered_stops_for_trip` is abstracted as a function from a trip id to
its ordered stop list, and the `trips`/`routes` table join giving
`route_name` as a function from a trip id to a string. -/

/-- One entry of the list built by `get_ordered_stops_for_trip`; only the
coordinates are consumed by `evaluate_routes`. -/
structure StopPt where
  lat : ℚ
  lon : ℚ
deriving DecidableEq

/-- The result dict appended to `route_scores` by `evaluate_routes`
(lines 181-190); `etas` entries are minutes-from-base offsets, `none`
rendering as `"N/A"`. -/
structure TripEval where
  route_name : String
  trip_id : ℕ
  stops : ℕ
  avg_congestion : ℚ
  est_delay_min : ℚ
  coordinates : List (ℚ × ℚ)
  congestion_values : List ℚ
  etas : List (Option ℚ)
deriving DecidableEq

/-- The speed pairs of the stops that pass the guard of the delay loop of
`evaluate_routes` (line 170): `if current_speed and free_speed and
free_speed > 0` — Python truthiness, so `current_speed ≠ 0`, `free_speed ≠ 0`
(and not `None`) and `free_speed > 0`. -/
def usableSpeeds (cong : ℚ → ℚ → Option (ℚ × ℚ)) (stops : List StopPt) :
    List (ℚ × ℚ) :=
  stops.filterMap (fun s =>
    match cong s.lat s.lon with
    | some (cs, ffs) => if cs ≠ 0 ∧ ffs ≠ 0 ∧ 0 < ffs then some (cs, ffs) else none
    | none => none)

/-- The loop of `get_estimated_times` (lines 207-219), with the base time
normalised to 0 and times kept as minute offsets: a stop whose two speeds are
truthy (`if current_speed and free_speed:` — no positivity check here)
advances the clock by `(1 - current_speed / free_speed) * 1.5` minutes and
contributes the new clock value; any other stop contributes `"N/A"` (`none`)
and does not advance the clock. -/
def estTimesGo (cong : ℚ → ℚ → Option (ℚ × ℚ)) : ℚ → List StopPt → List (Option ℚ)
  | _, [] => []
  | t, s :: rest =>
    match cong s.lat s.lon with
    | some (cs, ffs) =>
      if cs ≠ 0 ∧ ffs ≠ 0 then
        let t' := t + (1 - cs / ffs) * 1.5
        some t' :: estTimesGo cong t' rest
      else none :: estTimesGo cong t rest
    | none => none :: estTimesGo cong t rest

/-- `get_estimated_times(stops)` with the default base time taken as 0. -/
def estimatedTimes (cong : ℚ → ℚ → Option (ℚ × ℚ)) (stops : List StopPt) :
    List (Option ℚ) :=
  estTimesGo cong 0 stops

/-- The body of the `for trip_id in trip_ids` loop of `evaluate_routes`
(lines 159-190) for one trip: collect `congestion_values = max(0, 100 -
current_speed / free_speed * 100)` and `total_delay = Σ (1 - current_speed /
free_speed) * 1.5` over the stops passing the guard, and — only if
`congestion_values` is nonempty — append the result dict with
`avg_congestion = round(mean, 2)` and `est_delay_min = round(total_delay, 2)`.
A trip whose `congestion_values` is empty produces nothing. -/
def evalTrip (cong : ℚ → ℚ → Option (ℚ × ℚ)) (tripStops : ℕ → List StopPt)
    (routeName : ℕ → String) (trip_id : ℕ) : Option TripEval :=
  let stops := tripStops trip_id
  let etas := estimatedTimes cong stops
  let usable := usableSpeeds cong stops
  let congestion_values := usable.map (fun p => max 0 (100 - p.1 / p.2 * 100))
  let total_delay := (usable.map (fun p => (1 - p.1 / p.2) * 1.5)).sum
  if congestion_values = [] then none
  else some
    { route_name := routeName trip_id, trip_id := trip_id, stops := stops.length,
      avg_congestion := pyRound (congestion_values.sum / congestion_values.length) 2,
      est_delay_min := pyRound total_delay 2,
      coordinates := stops.map (fun s => (s.lat, s.lon)),
      congestion_values := congestion_values,
      etas := etas }

/-- The sort key relation of `sorted(route_scores, key=lambda x:
x['est_delay_min'])` (line 202). -/
def byDelay (a b : TripEval) : Prop := a.est_delay_min ≤ b.est_delay_min

instance : DecidableRel byDelay := fun a b =>
  inferInstanceAs (Decidable (a.est_delay_min ≤ b.est_delay_min))

instance : IsTotal TripEval byDelay := ⟨fun a b => le_total a.est_delay_min b.est_delay_min⟩

instance : IsTrans TripEval byDelay := ⟨fun _ _ _ hab hbc => le_trans hab hbc⟩

/-- `evaluate_routes(trip_ids)` (lines 156-202): evaluate each trip in input
order, drop the trips without data, and return the scores sorted ascending by
`est_delay_min`.  Python's `sorted` is a stable sort; it is modelled by
`List.insertionSort`, which is stable for a total transitive relation. -/
def evaluateRoutes (cong : ℚ → ℚ → Option (ℚ × ℚ)) (tripStops : ℕ → List StopPt)
    (routeName : ℕ → String) (trip_ids : List ℕ) : List TripEval :=
  List.insertionSort byDelay (trip_ids.filterMap (evalTrip cong tripStops routeName))

/-! ### `app.py` — route finding (`get_stop_id_by_name`, `find_routes_between`) -/

/-- One row of the GTFS `stops.txt` table, restricted to the columns consumed
by `get_stop_id_by_name`. -/
structure StopRow where
  stop_id : String
  stop_name : String
deriving DecidableEq

/-- One row of the GTFS `stop_times.txt` table, restricted to the columns
consumed by `find_routes_between`. -/
structure StopTimeRow where
  trip_id : ℕ
  stop_id : String
  stop_sequence : ℕ
deriving DecidableEq

/-- Python's `str.lower()` on a string of ASCII characters: code-point-wise
lowercasing (the same function as `String.toLower`, unfolded to the character
list so that it computes by kernel reduction). -/
def lowerStr (s : String) : String := ⟨s.data.map Char.toLower⟩

/-- `get_stop_id_by_name` (lines 84-86): the `stop_id` of the first row whose
`stop_name` matches case-insensitively, or `None` when no row matches. -/
def getStopIdByName (stops : List StopRow) (stop_name : String) : Option String :=
  ((stops.filter (fun r => lowerStr r.stop_name = lowerStr stop_name)).head?).map
    (·.stop_id)

/-- The key relation of `group.sort_values('stop_sequence')`. -/
def bySeq (a b : StopTimeRow) : Prop := a.stop_sequence ≤ b.stop_sequence

instance : DecidableRel bySeq := fun a b =>
  inferInstanceAs (Decidable (a.stop_sequence ≤ b.stop_sequence))

instance : IsTotal StopTimeRow bySeq := ⟨fun a b => Nat.le_total a.stop_sequence b.stop_sequence⟩

instance : IsTrans StopTimeRow bySeq := ⟨fun _ _ _ hab hbc => Nat.le_trans hab hbc⟩

/-- The ordered stop-id list of one `groupby('trip_id')` group
(`group.sort_values('stop_sequence')['stop_id'].tolist()`, line 95). -/
def tripStopIds (stop_times : List StopTimeRow) (trip_id : ℕ) : List String :=
  (List.insertionSort bySeq (stop_times.filter (fun r => r.trip_id = trip_id))).map
    (·.stop_id)

/-- The trip ids iterated by `stop_times_df.groupby('trip_id')` (line 94):
the distinct trip ids, in ascending key order (pandas sorts group keys). -/
def tripIdList (stop_times : List StopTimeRow) : List ℕ :=
  List.insertionSort (fun a b : ℕ => a ≤ b) (stop_times.map (·.trip_id)).dedup

/-- `find_routes_between` (lines 88-99): resolve both names; `if not source_id
or not dest_id: return []` (Python truthiness — an unresolved `None` or an
empty-string id both bail out); otherwise keep the trips whose ordered stop-id
list contains both ids with the first occurrence of the source id strictly
before the first occurrence of the destination id (`list.index` returns the
first occurrence). -/
def findRoutesBetween (stops : List StopRow) (stop_times : List StopTimeRow)
    (source_name dest_name : String) : List ℕ :=
  match getStopIdByName stops source_name, getStopIdByName stops dest_name with
  | some source_id, some dest_id =>
    if source_id = "" ∨ dest_id = "" then []
    else (tripIdList stop_times).filter (fun trip_id =>
      let stop_ids := tripStopIds stop_times trip_id
      decide (source_id ∈ stop_ids ∧ dest_id ∈ stop_ids ∧
        stop_ids.indexOf source_id < stop_ids.indexOf dest_id))
  | _, _ => []

/-! ### The spec's three-stop route example

Stops A → B → C with per-stop `(currentSpeed, freeFlowSpeed)` equal to
`(30, 30)`, `(15, 30)`, `(30, 30)`: the three stops are placed at latitudes
1, 2, 3 and the congestion assignment keys off the latitude. -/

/-- The example trip's ordered stops (any trip id maps to A, B, C). -/
def exampleStops : ℕ → List StopPt := fun _ => [⟨1, 0⟩, ⟨2, 0⟩, ⟨3, 0⟩]

/-- The example congestion assignment: `(15, 30)` at stop B (latitude 2),
`(30, 30)` elsewhere. -/
def exampleCong : ℚ → ℚ → Option (ℚ × ℚ) := fun lat _ =>
  if lat = 2 then some (15, 30) else some (30, 30)

/-- The example route name lookup. -/
def exampleRouteName : ℕ → String := fun _ => "335-E"

/-- The result record `evaluate_routes` builds for the example trip:
per-stop congestion `(0, 50, 0)`, `avg_congestion = round(50/3, 2) = 16.67`,
`est_delay_min = 0.75`. -/
def exampleEval : TripEval :=
  { route_name := "335-E", trip_id := 1, stops := 3, avg_congestion := 16.67,
    est_delay_min := 3 / 4, coordinates := [(1, 0), (2, 0), (3, 0)],
    congestion_values := [0, 50, 0], etas := [some 0, some (3 / 4), some (3 / 4)] }

/-! ## Theorems -/

/-! ### Helper lemmas -/

theorem sendAlertEmailDbUpdate_append (xs ys : List AlertRecord) (as : List Alert)
    (ts : ℕ) :
    sendAlertEmailDbUpdate (xs ++ ys) as ts =
      sendAlertEmailDbUpdate xs as ts ++ sendAlertEmailDbUpdate ys as ts := by
  induction as generalizing xs ys with
  | nil => rfl
  | cons a as ih =>
    simp only [sendAlertEmailDbUpdate, List.foldl_cons] at *
    rw [show notifyUpdate (xs ++ ys) a ts = notifyUpdate xs a ts ++ notifyUpdate ys a ts
      from List.map_append _ xs ys]
    exact ih _ _

theorem sendAlertEmailDbUpdate_of_no_match (ys : List AlertRecord) (as : List Alert)
    (ts : ℕ) (h : ∀ r ∈ ys, r.timestamp ≠ ts) :
    sendAlertEmailDbUpdate ys as ts = ys := by
  induction as with
  | nil => rfl
  | cons a as ih =>
    have hy : notifyUpdate ys a ts = ys := by
      unfold notifyUpdate
      conv_rhs => rw [← List.map_id ys]
      refine List.map_congr_left fun r hr => ?_
      simp only [id_eq]
      exact if_neg (fun hc => h r hr hc.2.2)
    simp only [sendAlertEmailDbUpdate, List.foldl_cons] at *
    rw [hy]
    exact ih

theorem sendAlertEmailDbUpdate_length (db : List AlertRecord) (as : List Alert)
    (ts : ℕ) : (sendAlertEmailDbUpdate db as ts).length = db.length := by
  induction as generalizing db with
  | nil => rfl
  | cons a as ih =>
    simp only [sendAlertEmailDbUpdate, List.foldl_cons] at *
    rw [ih]
    exact List.length_map _ _

theorem pyInt_eq_floor {q : ℚ} (h : 0 ≤ q) : pyInt q = ⌊q⌋ := if_pos h

theorem incGo_count_eq_zero (oracle : ℕ → IncResp) (h : ∀ n, incFails (oracle n)) :
    ∀ fuel a, (incGo oracle a fuel).count = 0 := by
  intro fuel
  induction fuel with
  | zero => intro a; rfl
  | succ fuel ih =>
    intro a
    have ha := h a
    cases e : oracle a with
    | http s incidents =>
      rw [e] at ha
      simp only [incFails] at ha
      simp only [incGo, e, if_neg ha]
      split
      · exact ih (a + 1)
      · exact ih (a + 1)
    | reqExn =>
      simp only [incGo, e]
      split
      · exact ih (a + 1)
      · exact ih (a + 1)
    | otherExn =>
      rw [e] at ha
      exact ha.elim

/-! ### The claims -/

/-- C7: for all `currentSpeed` and `freeFlowSpeed` with `freeFlowSpeed > 0`,
the traffic index computed in `check_for_alerts` and the one computed in
`get_traffic_trends` both lie in `[0, 100]` and are `0` whenever
`currentSpeed ≥ freeFlowSpeed`. -/
theorem traffic_index_clamped (cs ffs : ℚ) (hffs : 0 < ffs) :
    (0 ≤ trafficIndex cs ffs ∧ trafficIndex cs ffs ≤ 100 ∧
      (ffs ≤ cs → trafficIndex cs ffs = 0)) ∧
    (0 ≤ analyzerTrafficIndex cs ffs ∧ analyzerTrafficIndex cs ffs ≤ 100 ∧
      (ffs ≤ cs → analyzerTrafficIndex cs ffs = 0)) := by
  refine ⟨⟨?_, ?_, ?_⟩, ⟨?_, ?_, ?_⟩⟩
  · unfold trafficIndex
    split
    · exact le_max_left 0 _
    · exact le_refl 0
  · unfold trafficIndex
    split
    · exact max_le (by norm_num) (min_le_left _ _)
    · norm_num
  · intro hge
    have hcs : 0 < cs := lt_of_lt_of_le hffs hge
    have hr : (1 : ℚ) ≤ cs / ffs := (one_le_div hffs).mpr hge
    have ht : 100 * (1 - cs / ffs) ≤ 0 :=
      mul_nonpos_of_nonneg_of_nonpos (by norm_num) (by linarith)
    simp only [trafficIndex, if_pos (And.intro hffs hcs)]
    rw [min_eq_right (by linarith), max_eq_left ht]
  · exact le_min (le_max_right _ _) (by norm_num)
  · exact min_le_right _ _
  · intro hge
    have hr : (1 : ℚ) ≤ cs / ffs := (one_le_div hffs).mpr hge
    have ht : 100 * (1 - cs / ffs) ≤ 0 :=
      mul_nonpos_of_nonneg_of_nonpos (by norm_num) (by linarith)
    unfold analyzerTrafficIndex
    rw [max_eq_right ht, min_eq_left (by norm_num)]

/-- Witness for `traffic_index_clamped` at `currentSpeed = 60`,
`freeFlowSpeed = 50`. -/
theorem traffic_index_clamped_w :
    (0 : ℚ) < 50 ∧ trafficIndex 60 50 = 0 ∧ analyzerTrafficIndex 60 50 = 0 :=
  ⟨by norm_num, (traffic_index_clamped 60 50 (by norm_num)).1.2.2 (by norm_num),
    (traffic_index_clamped 60 50 (by norm_num)).2.2.2 (by norm_num)⟩

/-- C1 (code bug): after `_save_alerts` stamps the batch with the save-time
clock reading and `_send_alert_email` succeeds, the notification-status UPDATE
matches on a freshly taken clock reading; whenever the two readings differ
(they always do in practice — the second one is taken after the SMTP round
trip), the UPDATE matches none of the just-inserted rows, and their
`notified` flag remains 0, contradicting the claim that it is set to 1. -/
theorem notified_flag_stays_zero (db : List AlertRecord) (alerts : List Alert)
    (saveTime sendTime : ℕ) (hts : saveTime ≠ sendTime) :
    (processAlertBatch db alerts saveTime sendTime).drop db.length =
      alerts.map (fun a =>
        { point_name := a.point_name, alert_type := a.alert_type,
          severity := a.severity, timestamp := saveTime, notified := 0 }) := by
  have hnew : ∀ r ∈ alerts.map (fun a =>
      ({ point_name := a.point_name, alert_type := a.alert_type,
         severity := a.severity, timestamp := saveTime,
         notified := 0 } : AlertRecord)), r.timestamp ≠ sendTime := by
    intro r hr
    obtain ⟨a, _, rfl⟩ := List.mem_map.mp hr
    exact hts
  unfold processAlertBatch saveAlerts
  rw [sendAlertEmailDbUpdate_append, sendAlertEmailDbUpdate_of_no_match _ _ _ hnew]
  rw [show db.length = (sendAlertEmailDbUpdate db alerts sendTime).length from
    (sendAlertEmailDbUpdate_length db alerts sendTime).symm]
  exact List.drop_left _ _

/-- Witness for `notified_flag_stays_zero`: a one-alert batch saved at clock
reading 100 and dispatched at clock reading 101 keeps `notified = 0`. -/
theorem notified_flag_stays_zero_w :
    (processAlertBatch []
          [{ point_name := "Silk Board", alert_type := .CONGESTION, severity := 9 }]
          100 101).drop 0 =
      [{ point_name := "Silk Board", alert_type := .CONGESTION, severity := 9,
          timestamp := 100, notified := 0 }] :=
  notified_flag_stays_zero [] _ 100 101 (by decide)

/-- C10: when every incident-query attempt fails (non-200 or transport
exception on each of the `MAX_RETRIES` attempts), `_get_incident_count`
returns 0 — the same count a successful query with an empty `incidents` array
returns, so the persisted `traffic_incidents` field cannot distinguish the
two situations. -/
theorem incident_count_indistinguishable (oracle : ℕ → IncResp)
    (h : ∀ n, incFails (oracle n)) :
    (getIncidentCount oracle).count = 0 ∧
      (getIncidentCount (fun _ => .http 200 (some []))).count = 0 ∧
      (getIncidentCount oracle).count =
        (getIncidentCount (fun _ => .http 200 (some []))).count := by
  have h0 : (getIncidentCount oracle).count = 0 :=
    incGo_count_eq_zero oracle h MAX_RETRIES 0
  exact ⟨h0, rfl, h0⟩

/-- Witness for `incident_count_indistinguishable`: an always-500 upstream. -/
theorem incident_count_indistinguishable_w :
    (getIncidentCount (fun _ => .http 500 none)).count = 0 :=
  (incident_count_indistinguishable (fun _ => .http 500 none)
    (fun _ => show (500 : ℕ) ≠ 200 by decide)).1

/-- C2 counterexample: with an upstream that answers HTTP 403 on every
attempt, `get_traffic_data` does NOT surface the failure after the first
attempt: it makes all 3 attempts and performs the two backoff sleeps (1 s and
2 s) before giving up. -/
theorem auth_failure_is_retried_cex :
    getTrafficData (some "key") (fun _ => .http 403 none)
        (fun _ => .http 200 (some []))
        { name := "MG Road", lat := 12.9758, lon := 77.6045 } 0 =
      { result := none, attempts := 3, sleeps := [1, 2] } := by
  decide

/-- C2 amended: a definitive 4xx authorization failure (HTTP 403) is treated
like any other non-200 response: with an always-403 upstream the client makes
`MAX_RETRIES` (3) attempts with backoff sleeps of 1 s then 2 s, and only then
surfaces the failure (returns `None`). -/
theorem auth_failure_retry_schedule (oracle : ℕ → FlowResp)
    (incOracle : ℕ → IncResp) (point : RoutePoint) (now : ℕ) (apiKey : String)
    (hkey : apiKey ≠ "") (h : ∀ n, ∃ seg, oracle n = .http 403 seg) :
    getTrafficData (some apiKey) oracle incOracle point now =
      { result := none, attempts := 3, sleeps := [1, 2] } := by
  obtain ⟨s0, h0⟩ := h 0
  obtain ⟨s1, h1⟩ := h 1
  obtain ⟨s2, h2⟩ := h 2
  unfold getTrafficData
  rw [if_neg (by simpa using hkey)]
  show flowGo oracle incOracle point now 0 3 = _
  simp only [flowGo, h0, h1, h2]
  norm_num [MAX_RETRIES]

/-- Witness for `auth_failure_retry_schedule`. -/
theorem auth_failure_retry_schedule_w :
    getTrafficData (some "apikey") (fun _ => .http 403 (some ⟨none, none⟩))
        (fun _ => .http 200 (some []))
        { name := "Hebbal", lat := 13.0399, lon := 77.5989 } 7 =
      { result := none, attempts := 3, sleeps := [1, 2] } :=
  auth_failure_retry_schedule (fun _ => .http 403 (some ⟨none, none⟩))
    (fun _ => .http 200 (some [])) { name := "Hebbal", lat := 13.0399, lon := 77.5989 }
    7 "apikey" (by decide) (fun _ => ⟨some ⟨none, none⟩, rfl⟩)

/-- C9 counterexample: a 200 response whose `flowSegmentData.currentSpeed` is
`-5` is persisted as-is by the collector — the time-series store receives a
sample with a negative `current_speed`. -/
theorem negative_speed_persisted_cex :
    (collectPoint [] (some "key")
        (fun _ => .http 200 (some { currentSpeed := some (-5), freeFlowSpeed := some 30 }))
        (fun _ => .http 200 (some []))
        { name := "Silk Board", lat := 12.9177, lon := 77.6226 } 0).map
      (·.current_speed) = [some (-5)] ∧ (-5 : ℚ) < 0 := by
  constructor
  · decide
  · norm_num

/-- C9 amended: the collector performs no validation on the speed fields of a
200 response — whatever `currentSpeed` and `freeFlowSpeed` the upstream
reports (negative values included) are persisted unchanged. -/
theorem collector_persists_unvalidated_speed (v w : ℚ) (db : List Sample)
    (point : RoutePoint) (now : ℕ) (incOracle : ℕ → IncResp) :
    collectPoint db (some "key")
        (fun _ => .http 200 (some { currentSpeed := some v, freeFlowSpeed := some w }))
        incOracle point now =
      db ++ [{ point_name := point.name, latitude := point.lat,
               longitude := point.lon, timestamp := now, current_speed := some v,
               free_flow_speed := some w,
               traffic_incidents := (getIncidentCount incOracle).count }] :=
  rfl

theorem mem_alertsForRow (row : TrafficRow) (a : Alert) :
    a ∈ alertsForRow row ↔
      (80 ≤ trafficIndex row.current_speed row.free_flow_speed ∧
        a = congestionAlert row) ∨
      (3 ≤ row.traffic_incidents ∧ a = incidentsAlert row) ∨
      ((0 < row.free_flow_speed ∧ 0 < row.current_speed ∧
          row.current_speed / row.free_flow_speed ≤ 0.4) ∧
        a = speedReductionAlert row) := by
  unfold alertsForRow
  by_cases h1 : trafficIndex row.current_speed row.free_flow_speed ≥ 80 <;>
    by_cases h2 : row.traffic_incidents ≥ 3 <;>
    by_cases h3 : 0 < row.free_flow_speed ∧ 0 < row.current_speed ∧
      row.current_speed / row.free_flow_speed ≤ 0.4 <;>
    simp_all [ge_iff_le]

/-- C6 counterexample: the sample with `current_speed = 0`,
`free_flow_speed = 50` has speed ratio `0 ≤ 0.4`, yet `check_for_alerts`
raises no SPEED_REDUCTION alert for it (no alert at all): the code
additionally requires `current_speed > 0`, so the alert is not raised
"exactly when the ratio is at most 0.4". -/
theorem speed_reduction_not_iff_ratio_cex :
    (0 : ℚ) / 50 ≤ 0.4 ∧
      alertsForRow { point_name := "Hosur Road", current_speed := 0,
                     free_flow_speed := 50, traffic_incidents := 0 } = [] :=
  ⟨by norm_num, by decide⟩

/-- C6 amended: per recent row, a CONGESTION alert is raised exactly when the
code's traffic index (which is 0 unless both speeds are positive) is at least
80, an INCIDENTS alert exactly when the incident count is at least 3, and a
SPEED_REDUCTION alert exactly when BOTH SPEEDS ARE POSITIVE and the speed
ratio is at most 0.4; every raised alert's severity lies in `[1, 10]`; the
sample (10, 50) raises exactly CONGESTION and SPEED_REDUCTION, and the
ratio-0.9 sample (45, 50) raises nothing. -/
theorem alert_trigger_rules (row : TrafficRow) :
    ((∃ a ∈ alertsForRow row, a.alert_type = .CONGESTION) ↔
      80 ≤ trafficIndex row.current_speed row.free_flow_speed) ∧
    ((∃ a ∈ alertsForRow row, a.alert_type = .INCIDENTS) ↔
      3 ≤ row.traffic_incidents) ∧
    ((∃ a ∈ alertsForRow row, a.alert_type = .SPEED_REDUCTION) ↔
      (0 < row.free_flow_speed ∧ 0 < row.current_speed ∧
        row.current_speed / row.free_flow_speed ≤ 0.4)) ∧
    (∀ a ∈ alertsForRow row, 1 ≤ a.severity ∧ a.severity ≤ 10) ∧
    (alertsForRow { point_name := "MG Road", current_speed := 10,
                    free_flow_speed := 50, traffic_incidents := 0 }).map (·.alert_type) =
      [.CONGESTION, .SPEED_REDUCTION] ∧
    alertsForRow { point_name := "MG Road", current_speed := 45,
                   free_flow_speed := 50, traffic_incidents := 0 } = [] := by
  have hti1 : trafficIndex 10 50 = 80 := by
    unfold trafficIndex
    rw [if_pos (by norm_num : (0:ℚ) < 50 ∧ (0:ℚ) < 10)]
    norm_num [min_def, max_def]
  have hti2 : trafficIndex 45 50 = 10 := by
    unfold trafficIndex
    rw [if_pos (by norm_num : (0:ℚ) < 50 ∧ (0:ℚ) < 45)]
    norm_num [min_def, max_def]
  refine ⟨?_, ?_, ?_, ?_, ?_, ?_⟩
  · constructor
    · rintro ⟨a, ha, hty⟩
      rcases (mem_alertsForRow row a).mp ha with ⟨h, rfl⟩ | ⟨h, rfl⟩ | ⟨h, rfl⟩
      · exact h
      · simp [incidentsAlert] at hty
      · simp [speedReductionAlert] at hty
    · intro h
      exact ⟨congestionAlert row, (mem_alertsForRow row _).mpr (Or.inl ⟨h, rfl⟩), rfl⟩
  · constructor
    · rintro ⟨a, ha, hty⟩
      rcases (mem_alertsForRow row a).mp ha with ⟨h, rfl⟩ | ⟨h, rfl⟩ | ⟨h, rfl⟩
      · simp [congestionAlert] at hty
      · exact h
      · simp [speedReductionAlert] at hty
    · intro h
      exact ⟨incidentsAlert row,
        (mem_alertsForRow row _).mpr (Or.inr (Or.inl ⟨h, rfl⟩)), rfl⟩
  · constructor
    · rintro ⟨a, ha, hty⟩
      rcases (mem_alertsForRow row a).mp ha with ⟨h, rfl⟩ | ⟨h, rfl⟩ | ⟨h, rfl⟩
      · simp [congestionAlert] at hty
      · simp [incidentsAlert] at hty
      · exact h
    · intro h
      exact ⟨speedReductionAlert row,
        (mem_alertsForRow row _).mpr (Or.inr (Or.inr ⟨h, rfl⟩)), rfl⟩
  · intro a ha
    rcases (mem_alertsForRow row a).mp ha with ⟨h, rfl⟩ | ⟨h, rfl⟩ | ⟨h, rfl⟩
    · have hnn : (0:ℚ) ≤ trafficIndex row.current_speed row.free_flow_speed / 10 := by
        linarith
      have hfl : (8:ℤ) ≤ ⌊trafficIndex row.current_speed row.free_flow_speed / 10⌋ := by
        refine Int.le_floor.mpr ?_
        rw [le_div_iff₀ (by norm_num : (0:ℚ) < 10)]
        push_cast
        linarith
      refine ⟨?_, min_le_right _ _⟩
      show (1:ℤ) ≤ min (pyInt (trafficIndex row.current_speed row.free_flow_speed / 10)) 10
      rw [pyInt_eq_floor hnn]
      exact le_min (by linarith) (by norm_num)
    · exact ⟨le_min (by linarith) (by norm_num), min_le_right _ _⟩
    · obtain ⟨hf, hc, hr⟩ := h
      have hr' : row.current_speed / row.free_flow_speed ≤ 2 / 5 := by
        rw [show (0.4 : ℚ) = 2 / 5 by norm_num] at hr
        exact hr
      have harg : (6:ℚ) ≤ (1 - row.current_speed / row.free_flow_speed) * 10 := by
        linarith
      have hnn : (0:ℚ) ≤ (1 - row.current_speed / row.free_flow_speed) * 10 := by
        linarith
      have hfl : (6:ℤ) ≤ ⌊(1 - row.current_speed / row.free_flow_speed) * 10⌋ := by
        refine Int.le_floor.mpr ?_
        push_cast
        linarith
      refine ⟨?_, min_le_right _ _⟩
      show (1:ℤ) ≤
        min (pyInt ((1 - row.current_speed / row.free_flow_speed) * 10)) 10
      rw [pyInt_eq_floor hnn]
      exact le_min (by linarith) (by norm_num)
  · norm_num [alertsForRow, hti1, congestionAlert, speedReductionAlert]
  · norm_num [alertsForRow, hti2]

/-- Witness for `alert_trigger_rules`: a sample with 5 incidents raises an
INCIDENTS alert. -/
theorem alert_trigger_rules_w :
    ∃ a ∈ alertsForRow { point_name := "Silk Board", current_speed := 10,
                         free_flow_speed := 50, traffic_incidents := 5 },
      a.alert_type = .INCIDENTS :=
  (alert_trigger_rules _).2.1.mpr (by norm_num)

/-- C3: (i) storing a speed pair for `(lat, lon)` and then calling
`get_congestion` for the same coordinates returns exactly that pair;
(ii) two coordinate pairs that agree after rounding to 4 decimal places are
served identically from any state (they share one cache entry); (iii) after a
cache-miss call that fetched `(a, b)` from the API, a second call for the same
exact coordinates returns the identical value from the cache and performs no
API call (`api_calls` does not change, whatever the API would answer). -/
theorem cache_round_trip (st : CacheSt) (api : ApiResp) (lat lon lat2 lon2 a b : ℚ) :
    ((getCongestion (cachePut st lat lon a b) api lat lon).1 = some (a, b)) ∧
    (pyRound lat 4 = pyRound lat2 4 → pyRound lon 4 = pyRound lon2 4 →
      getCongestion st api lat lon = getCongestion st api lat2 lon2) ∧
    (st.cache (quantKey lat lon) = none →
      (getCongestion st (.ok a b) lat lon).1 = some (a, b) ∧
      (getCongestion (getCongestion st (.ok a b) lat lon).2 api lat lon).1 =
        some (a, b) ∧
      (getCongestion (getCongestion st (.ok a b) lat lon).2 api lat lon).2.api_calls =
        (getCongestion st (.ok a b) lat lon).2.api_calls) := by
  refine ⟨?_, ?_, ?_⟩
  · simp [getCongestion, cachePut]
  · intro h1 h2
    simp only [getCongestion, cachePut, quantKey, h1, h2]
  · intro hmiss
    refine ⟨?_, ?_, ?_⟩ <;> simp [getCongestion, cachePut, hmiss]

/-- Witness for `cache_round_trip`: the MG Road scenario — an empty cache,
coordinates `(12.9758, 77.6045)`, API answer `(20, 40)`. -/
theorem cache_round_trip_w :
    (getCongestion { cache := fun _ => none, cache_hits := 0, api_calls := 0 }
        (.ok 20 40) 12.9758 77.6045).1 = some (20, 40) ∧
    (getCongestion
        (getCongestion { cache := fun _ => none, cache_hits := 0, api_calls := 0 }
          (.ok 20 40) 12.9758 77.6045).2 (.ok 20 40) 12.9758 77.6045).1 =
      some (20, 40) ∧
    (getCongestion
        (getCongestion { cache := fun _ => none, cache_hits := 0, api_calls := 0 }
          (.ok 20 40) 12.9758 77.6045).2 (.ok 20 40) 12.9758 77.6045).2.api_calls =
      (getCongestion { cache := fun _ => none, cache_hits := 0, api_calls := 0 }
        (.ok 20 40) 12.9758 77.6045).2.api_calls :=
  (cache_round_trip { cache := fun _ => none, cache_hits := 0, api_calls := 0 }
    (.ok 20 40) 12.9758 77.6045 0 0 20 40).2.2 rfl

/-- C8: `get_stop_id_by_name` matches case-insensitively (two names with the
same lowercase form resolve identically); `find_routes_between` returns the
empty list when either name is unresolved; and when both names resolve (to
nonempty, i.e. Python-truthy, ids) the returned trips are exactly those whose
ordered stop sequence contains both ids with the (first occurrence of the)
source id strictly before the (first occurrence of the) destination id. -/
theorem find_routes_semantics (stops : List StopRow) (stop_times : List StopTimeRow)
    (source_name dest_name : String) :
    (∀ name other : String, lowerStr name = lowerStr other →
      getStopIdByName stops name = getStopIdByName stops other) ∧
    ((getStopIdByName stops source_name = none ∨
        getStopIdByName stops dest_name = none) →
      findRoutesBetween stops stop_times source_name dest_name = []) ∧
    (∀ s d, getStopIdByName stops source_name = some s → s ≠ "" →
      getStopIdByName stops dest_name = some d → d ≠ "" →
      ∀ trip_id, trip_id ∈ findRoutesBetween stops stop_times source_name dest_name ↔
        ((∃ r ∈ stop_times, r.trip_id = trip_id) ∧
          s ∈ tripStopIds stop_times trip_id ∧ d ∈ tripStopIds stop_times trip_id ∧
          (tripStopIds stop_times trip_id).indexOf s <
            (tripStopIds stop_times trip_id).indexOf d)) := by
  refine ⟨?_, ?_, ?_⟩
  · intro name other h
    simp only [getStopIdByName, h]
  · rintro (h | h)
    · simp [findRoutesBetween, h]
    · rcases e : getStopIdByName stops source_name with _ | s
      · simp [findRoutesBetween, e]
      · simp [findRoutesBetween, e, h]
  · intro s d hs hs' hd hd' trip_id
    simp only [findRoutesBetween, hs, hd]
    rw [if_neg (not_or.mpr ⟨hs', hd'⟩)]
    rw [List.mem_filter, decide_eq_true_eq]
    constructor
    · rintro ⟨hmem, hcond⟩
      refine ⟨?_, hcond⟩
      have : trip_id ∈ (stop_times.map (·.trip_id)).dedup :=
        (List.perm_insertionSort _ _).mem_iff.mp hmem
      rw [List.mem_dedup, List.mem_map] at this
      obtain ⟨r, hr, hrt⟩ := this
      exact ⟨r, hr, hrt⟩
    · rintro ⟨⟨r, hr, hrt⟩, hcond⟩
      refine ⟨?_, hcond⟩
      refine (List.perm_insertionSort _ _).mem_iff.mpr ?_
      rw [List.mem_dedup, List.mem_map]
      exact ⟨r, hr, hrt⟩

theorem filter_orderedInsert_of_key (d : ℚ) (x : TripEval) (l : List TripEval)
    (hx : x.est_delay_min = d) :
    (List.orderedInsert byDelay x l).filter (fun e => decide (e.est_delay_min = d)) =
      x :: l.filter (fun e => decide (e.est_delay_min = d)) := by
  induction l with
  | nil => simp [hx]
  | cons y l ih =>
    by_cases hxy : byDelay x y
    · rw [List.orderedInsert_of_le byDelay l hxy]
      simp [List.filter_cons, hx]
    · have hy : ¬ y.est_delay_min = d := fun hyd =>
        hxy (show x.est_delay_min ≤ y.est_delay_min by rw [hx, hyd])
      simp only [List.orderedInsert, if_neg hxy]
      simp [List.filter_cons, hy, ih]

theorem filter_orderedInsert_of_ne (d : ℚ) (x : TripEval) (l : List TripEval)
    (hx : ¬ x.est_delay_min = d) :
    (List.orderedInsert byDelay x l).filter (fun e => decide (e.est_delay_min = d)) =
      l.filter (fun e => decide (e.est_delay_min = d)) := by
  induction l with
  | nil => simp [hx]
  | cons y l ih =>
    by_cases hxy : byDelay x y
    · rw [List.orderedInsert_of_le byDelay l hxy]
      simp [List.filter_cons, hx]
    · simp only [List.orderedInsert, if_neg hxy]
      simp [List.filter_cons, ih]

theorem filter_insertionSort_eq (d : ℚ) (l : List TripEval) :
    (List.insertionSort byDelay l).filter (fun e => decide (e.est_delay_min = d)) =
      l.filter (fun e => decide (e.est_delay_min = d)) := by
  induction l with
  | nil => rfl
  | cons a l ih =>
    show (List.orderedInsert byDelay a (List.insertionSort byDelay l)).filter _ = _
    by_cases ha : a.est_delay_min = d
    · rw [filter_orderedInsert_of_key d a _ ha, ih]
      simp [List.filter_cons, ha]
    · rw [filter_orderedInsert_of_ne d a _ ha, ih]
      simp [List.filter_cons, ha]

theorem pyRound_50_3 : pyRound (50 / 3) 2 = 16.67 := by
  have harg : (50 : ℚ) / 3 * 10 ^ 2 = 5000 / 3 := by norm_num
  have hfl : ⌊(5000 : ℚ) / 3⌋ = 1666 := Int.floor_eq_iff.mpr (by norm_num)
  unfold pyRound rhe
  rw [harg, hfl]
  norm_num

theorem pyRound_3_4 : pyRound (3 / 4) 2 = 3 / 4 := by
  have harg : (3 : ℚ) / 4 * 10 ^ 2 = 75 := by norm_num
  have hfl : ⌊(75 : ℚ)⌋ = 75 := Int.floor_eq_iff.mpr (by norm_num)
  unfold pyRound rhe
  rw [harg, hfl]
  norm_num

theorem evalTrip_eq_none_iff (cong : ℚ → ℚ → Option (ℚ × ℚ))
    (tripStops : ℕ → List StopPt) (routeName : ℕ → String) (trip_id : ℕ) :
    evalTrip cong tripStops routeName trip_id = none ↔
      usableSpeeds cong (tripStops trip_id) = [] := by
  by_cases hu : usableSpeeds cong (tripStops trip_id) = [] <;>
    simp [evalTrip, hu]

theorem evalTrip_fields (cong : ℚ → ℚ → Option (ℚ × ℚ))
    (tripStops : ℕ → List StopPt) (routeName : ℕ → String) (trip_id : ℕ)
    (ev : TripEval) (hev : evalTrip cong tripStops routeName trip_id = some ev) :
    ev.congestion_values =
      (usableSpeeds cong (tripStops trip_id)).map
        (fun p => max 0 (100 - 100 * (p.1 / p.2))) ∧
    ev.est_delay_min =
      pyRound (((usableSpeeds cong (tripStops trip_id)).map
        (fun p => (1 - p.1 / p.2) * 1.5)).sum) 2 ∧
    ev.avg_congestion =
      pyRound (ev.congestion_values.sum / ev.congestion_values.length) 2 := by
  simp only [evalTrip] at hev
  split at hev
  · exact Option.noConfusion hev
  · injection hev with h
    subst h
    refine ⟨?_, rfl, rfl⟩
    show (usableSpeeds cong (tripStops trip_id)).map
      (fun p => max 0 (100 - p.1 / p.2 * 100)) = _
    refine List.map_congr_left fun p _ => ?_
    rw [show (100 : ℚ) - p.1 / p.2 * 100 = 100 - 100 * (p.1 / p.2) by ring]

theorem evalTrip_example :
    evalTrip exampleCong exampleStops exampleRouteName 1 = some exampleEval := by
  simp only [evalTrip, usableSpeeds, estimatedTimes, estTimesGo, exampleCong,
    exampleStops, exampleRouteName, exampleEval, List.filterMap]
  norm_num [max_def, pyRound_50_3, pyRound_3_4]
  intro h
  simp at h

/-- C4 counterexample: a stop whose looked-up `currentSpeed` is negative
(`-15`, free-flow `30`) is NOT excluded from aggregation: the trip stays in
the ranked output with the per-stop congestion value 150 (outside `[0, 100]`,
impossible for a stop with both speeds positive), because Python's truthiness
test `if current_speed and free_speed and free_speed > 0` accepts any nonzero
`current_speed`. -/
theorem negative_speed_included_cex :
    (evaluateRoutes (fun _ _ => some (-15, 30)) (fun _ => [{ lat := 1, lon := 1 }])
        (fun _ => "R") [7]).map (·.congestion_values) = [[150]] ∧
      ¬ ((150 : ℚ) ≤ 100) := by
  constructor
  · norm_num [evaluateRoutes, evalTrip, usableSpeeds, estimatedTimes, estTimesGo,
      List.filterMap, List.insertionSort, List.orderedInsert, max_def]
  · norm_num

/-- C4 amended: per trip, the per-stop congestion is
`max(0, 100 - 100*currentSpeed/freeFlowSpeed)` and the delay contribution is
`(1 - currentSpeed/freeFlowSpeed) * 1.5` minutes, computed exactly for the
stops whose looked-up speeds are present and nonzero with
`freeFlowSpeed > 0` (a negative `currentSpeed` is NOT excluded);
`avg_congestion` is the 2-decimal rounding of the mean of the included
per-stop values, `est_delay_min` the 2-decimal rounding of the delay sum; a
trip with no included stop is dropped from the output; and the three-stop
example with speeds `(30,30), (15,30), (30,30)` yields
`avg_congestion = 16.67` and `est_delay_min = 0.75`. -/
theorem route_scoring_formulas (cong : ℚ → ℚ → Option (ℚ × ℚ))
    (tripStops : ℕ → List StopPt) (routeName : ℕ → String) (trip_id : ℕ) :
    (evalTrip cong tripStops routeName trip_id = none ↔
      usableSpeeds cong (tripStops trip_id) = []) ∧
    (∀ ev, evalTrip cong tripStops routeName trip_id = some ev →
      ev.congestion_values =
        (usableSpeeds cong (tripStops trip_id)).map
          (fun p => max 0 (100 - 100 * (p.1 / p.2))) ∧
      ev.est_delay_min =
        pyRound (((usableSpeeds cong (tripStops trip_id)).map
          (fun p => (1 - p.1 / p.2) * 1.5)).sum) 2 ∧
      ev.avg_congestion =
        pyRound (ev.congestion_values.sum / ev.congestion_values.length) 2) ∧
    (evalTrip exampleCong exampleStops exampleRouteName 1).map (·.avg_congestion) =
      some 16.67 ∧
    (evalTrip exampleCong exampleStops exampleRouteName 1).map (·.est_delay_min) =
      some 0.75 :=
  ⟨evalTrip_eq_none_iff cong tripStops routeName trip_id,
   fun ev hev => evalTrip_fields cong tripStops routeName trip_id ev hev,
   by rw [evalTrip_example]; norm_num [exampleEval],
   by rw [evalTrip_example]; norm_num [exampleEval]⟩

/-- Witness for `route_scoring_formulas`, at the example trip. -/
theorem route_scoring_formulas_w :
    exampleEval.est_delay_min =
      pyRound (((usableSpeeds exampleCong (exampleStops 1)).map
        (fun p => (1 - p.1 / p.2) * 1.5)).sum) 2 :=
  ((route_scoring_formulas exampleCong exampleStops exampleRouteName 1).2.1
    exampleEval evalTrip_example).2.1

/-- C5: for every trip-id list and every fixed congestion assignment, the
evaluations returned by `evaluate_routes` are sorted ascending by
`est_delay_min`; they are a permutation of the in-input-order evaluations; and
for every delay value the sub-list of evaluations with that exact delay is
unchanged by the sort (Python's `sorted` is stable), i.e. ties keep input
order. -/
theorem evaluate_routes_sorted_stable (cong : ℚ → ℚ → Option (ℚ × ℚ))
    (tripStops : ℕ → List StopPt) (routeName : ℕ → String) (trip_ids : List ℕ) :
    List.Sorted byDelay (evaluateRoutes cong tripStops routeName trip_ids) ∧
    (evaluateRoutes cong tripStops routeName trip_ids).Perm
      (trip_ids.filterMap (evalTrip cong tripStops routeName)) ∧
    ∀ d : ℚ,
      (evaluateRoutes cong tripStops routeName trip_ids).filter
          (fun e => decide (e.est_delay_min = d)) =
        (trip_ids.filterMap (evalTrip cong tripStops routeName)).filter
          (fun e => decide (e.est_delay_min = d)) :=
  ⟨List.sorted_insertionSort byDelay _, List.perm_insertionSort byDelay _,
    fun d => filter_insertionSort_eq d _⟩

/-- Witness for `find_routes_semantics`: a three-stop table with one trip
Alpha → Beta → Gamma; the query ("alpha", "BETA") finds trip 1. -/
theorem find_routes_semantics_w :
    1 ∈ findRoutesBetween
        [{ stop_id := "S1", stop_name := "Alpha" },
         { stop_id := "S2", stop_name := "Beta" },
         { stop_id := "S3", stop_name := "Gamma" }]
        [{ trip_id := 1, stop_id := "S1", stop_sequence := 1 },
         { trip_id := 1, stop_id := "S2", stop_sequence := 2 },
         { trip_id := 1, stop_id := "S3", stop_sequence := 3 }]
        "alpha" "BETA" :=
  ((find_routes_semantics _ _ "alpha" "BETA").2.2 "S1" "S2" (by decide) (by decide)
    (by decide) (by decide) 1).mpr (by decide)

end PTA
